import Mathlib

/-!
# Verification of openuem-console authorization and enrollment-token logic

Shallow embedding of the decision logic of the openuem-console repository:
the enrollment-token redemption state machine and public download handler
(`PublicDownloadConfig`, `generatePlatformConfigINI`, `deriveExternalNATSURL`),
the tenant-scoped authorization middlewares (`TenantAdminMiddleware`,
`TenantOperatorMiddleware`), the user/tenant membership model
(`GetUserRoleInTenant`, `IsUserTenantAdmin`, `IsSuperAdmin`,
`SetHosterTenant`, `SetUserDefaultTenant`, `AssignUserToTenant`) and the
token-creation form parsing (`CreateEnrollmentToken`).

Go machine integers are modelled as unbounded `Int` (the values involved are
small counters and identifiers; range clamping of `strconv.Atoi` is not
modelled).  Timestamps are modelled as `Int` instants; `time.Time.Before` is
strict `<`.  Database access through the ent client is modelled as pure
operations over lists of rows; ent's `Only` returns the row when the filtered
result has exactly one element and an error otherwise.
-/

/-- The `EnrollmentToken` row: token value, active flag, optional expiry instant,
`max_uses` (0 = unlimited), `current_uses`, owning tenant id and optional
site id (the tenant/site edges of the ent entity). -/
structure EnrollmentToken where
  token : String
  active : Bool
  expiresAt : Option Int
  maxUses : Int
  currentUses : Int
  tenantId : Int
  siteId : Option Int
  deriving DecidableEq, Repr

/-- The redemption states of the spec's token state machine. -/
inductive RedeemState where
  | notFound
  | inactive
  | expired
  | exhausted
  | valid
  deriving DecidableEq, Repr

/-- Go's `token.ExpiresAt != nil && token.ExpiresAt.Before(time.Now())`. -/
def isExpired (t : EnrollmentToken) (now : Int) : Bool :=
  match t.expiresAt with
  | some e => decide (e < now)
  | none => false

/-- The validity checks of `PublicDownloadConfig` in source order:
inactive, then expired, then usage limit, else valid. -/
def checkToken (t : EnrollmentToken) (now : Int) : RedeemState :=
  if !t.active then .inactive
  else if isExpired t now then .expired
  else if t.maxUses > 0 && t.currentUses ≥ t.maxUses then .exhausted
  else .valid

/-- Modelled from the spec: `GetByValue(value)` of the Enrollment Token Store
(the body of `Model.GetEnrollmentTokenByValue` is not part of the given
sources); per the spec it is a read used only by the redemption path,
modelled as a lookup by token value. -/
def getEnrollmentTokenByValue (store : List EnrollmentToken) (v : String) :
    Option EnrollmentToken :=
  store.find? (fun t => t.token == v)

/-- One redemption attempt as performed by `PublicDownloadConfig`: the state
reached, paired with the resulting store.  The handler's only store
interaction is the `GetEnrollmentTokenByValue` read, so the store is
returned unchanged. -/
def redeemStep (store : List EnrollmentToken) (v : String) (now : Int) :
    RedeemState × List EnrollmentToken :=
  match getEnrollmentTokenByValue store v with
  | none => (.notFound, store)
  | some t => (checkToken t now, store)

/-- C1 counterexample: a token created with `max_uses = 1` redeemed twice
sequentially yields `Valid` on *both* attempts — the redemption handler never
increments `current_uses` (its only store interaction is the lookup), so the
claim's "a non-Valid (Exhausted) state for every attempt thereafter" fails at
the second attempt. -/
theorem redeemStep_maxUses_one_twice_valid :
    (redeemStep [⟨"tok-aaaa", true, none, 1, 0, 7, none⟩] "tok-aaaa" 0).1 =
        .valid ∧
      (redeemStep
          (redeemStep [⟨"tok-aaaa", true, none, 1, 0, 7, none⟩] "tok-aaaa" 0).2
          "tok-aaaa" 0).1 = .valid := by
  constructor <;> rfl

/-- C1 (amended): redemption does not mutate the store; for a found, active,
unexpired token with `max_uses = N > 0` an attempt yields `Valid` iff
`current_uses < N`, and because no attempt increments `current_uses`,
sequential attempts all yield the same state. -/
theorem redeemStep_no_increment (store : List EnrollmentToken) (v : String)
    (now : Int) (t : EnrollmentToken)
    (hfind : getEnrollmentTokenByValue store v = some t)
    (hact : t.active = true) (hexp : isExpired t now = false)
    (hN : 0 < t.maxUses) :
    (redeemStep store v now).2 = store ∧
      ((redeemStep store v now).1 = .valid ↔ t.currentUses < t.maxUses) ∧
      redeemStep (redeemStep store v now).2 v now = redeemStep store v now := by
  have hstep : redeemStep store v now = (checkToken t now, store) := by
    unfold redeemStep
    rw [hfind]
  refine ⟨by rw [hstep], ?_, by simp only [hstep]⟩
  rw [hstep]
  show checkToken t now = .valid ↔ _
  unfold checkToken
  rw [hact, hexp]
  by_cases h : t.currentUses < t.maxUses
  · simp [hN, h, not_le.mpr h]
  · push_neg at h
    simp [hN, h, not_lt.mpr h]

/-- A sample enrollment token used to instantiate the amended C1 theorem. -/
def sampleToken2 : EnrollmentToken := ⟨"tok-bbbb", true, some 10, 2, 1, 3, some 4⟩

/-- C1 amended, witness: a concrete token with `max_uses = 2`,
`current_uses = 1` is found, active, unexpired; the attempt leaves the store
unchanged, is `Valid` (1 < 2), and repeating it gives the same outcome. -/
theorem redeemStep_no_increment_witness :
    (redeemStep [sampleToken2] "tok-bbbb" 5).2 = [sampleToken2] ∧
      ((redeemStep [sampleToken2] "tok-bbbb" 5).1 = .valid ↔
        sampleToken2.currentUses < sampleToken2.maxUses) ∧
      redeemStep (redeemStep [sampleToken2] "tok-bbbb" 5).2 "tok-bbbb" 5 =
        redeemStep [sampleToken2] "tok-bbbb" 5 :=
  redeemStep_no_increment [sampleToken2] "tok-bbbb" 5 sampleToken2 (by decide)
    (by decide) (by decide) (by decide)

/-- C2 counterexample: an inactive token whose `expires_at` is in the past
(and which is also exhausted) redeems as `Inactive`, not `Expired` — the
active-flag check precedes the expiry check, so "Expired regardless of the
token's active flag" fails. -/
theorem checkToken_inactive_beats_expired :
    checkToken ⟨"t", false, some (-1), 1, 5, 0, none⟩ 0 = .inactive ∧
      checkToken ⟨"t", false, some (-1), 1, 5, 0, none⟩ 0 ≠ .expired := by
  constructor <;> decide

/-- C2 (amended): for every *active* token whose `expires_at` lies in the
past, redemption yields `Expired` regardless of the usage counters; in
particular `Expired` takes precedence over `Exhausted` when a token is both
expired and exhausted. -/
theorem checkToken_expired_of_active (t : EnrollmentToken) (now e : Int)
    (hact : t.active = true) (hsome : t.expiresAt = some e) (hlt : e < now) :
    checkToken t now = .expired := by
  unfold checkToken isExpired
  rw [hact, hsome]
  simp [hlt]

/-- C2 amended, witness: an active token that is simultaneously expired
(`expires_at = -1 < 0 = now`) and exhausted (`current_uses = 5 ≥ 1 =
max_uses`) redeems as `Expired`. -/
theorem checkToken_expired_of_active_witness :
    checkToken ⟨"t", true, some (-1), 1, 5, 0, none⟩ 0 = .expired :=
  checkToken_expired_of_active _ _ (-1) rfl rfl (by decide)

/-! ## Generic counting lemmas for the singleton-flag invariants -/

/-- Over a list whose keys are nodup, at most one element has a given key. -/
theorem countP_key_le_one {α β : Type} [DecidableEq β] (key : α → β)
    (k : β) : ∀ l : List α, (l.map key).Nodup →
    l.countP (fun a => decide (key a = k)) ≤ 1 := by
  intro l
  induction l with
  | nil => intro _; simp
  | cons a t ih =>
    intro hnd
    rw [List.map_cons, List.nodup_cons] at hnd
    by_cases hk : key a = k
    · rw [List.countP_cons_of_pos _ _ (by simpa using hk)]
      have hz : t.countP (fun b => decide (key b = k)) = 0 := by
        rw [List.countP_eq_zero]
        intro b hb
        simp only [decide_eq_true_eq]
        intro hbk
        apply hnd.1
        rw [hk, ← hbk]
        exact List.mem_map_of_mem key hb
      omega
    · rw [List.countP_cons_of_neg _ _ (by simpa using hk)]
      exact ih hnd.2

/-! ## strconv.Atoi -/

/-- Decimal value of a digit string. -/
def digitsToNat (l : List Char) : Nat :=
  l.foldl (fun n c => n * 10 + (c.toNat - '0'.toNat)) 0

/-- Model of `strconv.Atoi`: an optional sign followed by one or more decimal digits;
anything else is a parse error (`none`).  Values are unbounded here, so the
64-bit range clamping of Go's Atoi is not modelled. -/
def atoi (s : String) : Option Int :=
  match s.toList with
  | [] => none
  | '+' :: ds =>
    if ds ≠ [] ∧ ds.all Char.isDigit then some (digitsToNat ds) else none
  | '-' :: ds =>
    if ds ≠ [] ∧ ds.all Char.isDigit then some (-(digitsToNat ds : Int))
    else none
  | ds => if ds.all Char.isDigit then some (digitsToNat ds) else none

example : atoi "42" = some 42 := by decide
example : atoi "-7" = some (-7) := by decide
example : atoi "" = none := by decide
example : atoi "12abc" = none := by decide

/-! ## User/tenant membership model -/

/-- The `UserTenantRole` values: the three roles of the membership table. -/
inductive UserTenantRole where
  | admin
  | operator
  | user
  deriving DecidableEq, Repr

/-- A `UserTenant` membership row (composite key: user id, tenant id). -/
structure UserTenant where
  userId : String
  tenantId : Int
  role : UserTenantRole
  isDefault : Bool
  deriving DecidableEq, Repr

/-- A `Tenant` row (only the fields the claims touch). -/
structure Tenant where
  id : Int
  isHosterTenant : Bool
  deriving DecidableEq, Repr

/-- A `User` row with the legacy persisted `is_super_admin` flag. -/
structure UserRec where
  id : String
  isSuperAdmin : Bool
  deriving DecidableEq, Repr

/-- ent's `Only`: succeeds exactly when the filtered query returns a single
row; zero rows (not-found) or several rows are errors. -/
def entOnly {α : Type} (l : List α) : Except Unit α :=
  match l with
  | [a] => .ok a
  | _ => .error ()

/-- Model of `GetUserRoleInTenant`: `Only` over the rows matching the composite key,
projected to the role; a user with no membership row gets an error. -/
def getUserRoleInTenant (db : List UserTenant) (uid : String) (tid : Int) :
    Except Unit UserTenantRole :=
  match entOnly (db.filter (fun r => r.userId = uid ∧ r.tenantId = tid)) with
  | .error e => .error e
  | .ok r => .ok r.role

/-- Model of `IsUserTenantAdmin`: propagates the role-lookup error; otherwise tests
the role for `admin`. -/
def isUserTenantAdmin (db : List UserTenant) (uid : String) (tid : Int) :
    Except Unit Bool :=
  match getUserRoleInTenant db uid tid with
  | .error e => .error e
  | .ok role => .ok (decide (role = .admin))

/-! ## Access middlewares -/

/-- Outcome of a middleware gate: redirect to login, an HTTP error with a
status and message key, or fall through to the protected handler.  The
middlewares build the 500 body from the dynamic `err.Error()` text; it is
modelled by the constant key `"internal error"`. -/
inductive MwResult where
  | login
  | httpError (status : Nat) (key : String)
  | next
  deriving DecidableEq, Repr

/-- Model of `TenantAdminMiddleware`: missing session → login redirect; missing tenant
parameter → 400; unparseable tenant parameter → 400; role-lookup error → 500;
non-admin role → 403; admin → next. -/
def tenantAdminMiddleware (db : List UserTenant) (username tenantParam : String) :
    MwResult :=
  if username = "" then .login
  else if tenantParam = "" then .httpError 400 "tenants.tenant_required"
  else
    match atoi tenantParam with
    | none => .httpError 400 "tenants.invalid_tenant_id"
    | some tid =>
      match isUserTenantAdmin db username tid with
      | .error _ => .httpError 500 "internal error"
      | .ok isAdmin =>
        if !isAdmin then .httpError 403 "tenants.admin_required" else .next

/-- Model of `TenantOperatorMiddleware`: same gate shape, accepting the role when it
is `admin` or `operator`. -/
def tenantOperatorMiddleware (db : List UserTenant)
    (username tenantParam : String) : MwResult :=
  if username = "" then .login
  else if tenantParam = "" then .httpError 400 "tenants.tenant_required"
  else
    match atoi tenantParam with
    | none => .httpError 400 "tenants.invalid_tenant_id"
    | some tid =>
      match getUserRoleInTenant db username tid with
      | .error _ => .httpError 500 "internal error"
      | .ok role =>
        if role ≠ .admin ∧ role ≠ .operator then
          .httpError 403 "tenants.operator_required"
        else .next

/-- C3 counterexample: an authenticated user (`"u"`) addressing a parseable
tenant (`"5"`) in which they have *no membership row at all* receives a
500-equivalent response from the tenant-admin gate, not the 403-equivalent
denial the claim requires ("never any other status"). -/
theorem tenantAdminMiddleware_no_membership_500 :
    tenantAdminMiddleware [] "u" "5" = .httpError 500 "internal error" ∧
      tenantAdminMiddleware [] "u" "5" ≠
        .httpError 403 "tenants.admin_required" ∧
      tenantOperatorMiddleware [] "u" "5" = .httpError 500 "internal error" := by
  refine ⟨by decide, by decide, by decide⟩

/-- C3 (amended): for the tenant-admin and tenant-operator gates — a missing
session yields the login redirect; a missing or unparseable tenant parameter
yields a 400; an authenticated user holding a membership row in the addressed
tenant with an insufficient role yields a 403; but a user with *no membership
row at all* (the role lookup errors) yields a 500-equivalent response, not a
403. -/
theorem tenantGate_responses (db : List UserTenant)
    (username tenantParam : String) (tid : Int) (r : UserTenant) :
    (username = "" →
        tenantAdminMiddleware db username tenantParam = .login ∧
          tenantOperatorMiddleware db username tenantParam = .login) ∧
      (username ≠ "" → tenantParam = "" →
        tenantAdminMiddleware db username tenantParam =
            .httpError 400 "tenants.tenant_required" ∧
          tenantOperatorMiddleware db username tenantParam =
            .httpError 400 "tenants.tenant_required") ∧
      (username ≠ "" → tenantParam ≠ "" → atoi tenantParam = none →
        tenantAdminMiddleware db username tenantParam =
            .httpError 400 "tenants.invalid_tenant_id" ∧
          tenantOperatorMiddleware db username tenantParam =
            .httpError 400 "tenants.invalid_tenant_id") ∧
      (username ≠ "" → atoi tenantParam = some tid →
        db.filter (fun x => x.userId = username ∧ x.tenantId = tid) = [] →
        tenantAdminMiddleware db username tenantParam =
            .httpError 500 "internal error" ∧
          tenantOperatorMiddleware db username tenantParam =
            .httpError 500 "internal error") ∧
      (username ≠ "" → atoi tenantParam = some tid →
        db.filter (fun x => x.userId = username ∧ x.tenantId = tid) = [r] →
        (r.role ≠ .admin →
          tenantAdminMiddleware db username tenantParam =
            .httpError 403 "tenants.admin_required") ∧
          (r.role = .admin →
            tenantAdminMiddleware db username tenantParam = .next) ∧
          (r.role ≠ .admin → r.role ≠ .operator →
            tenantOperatorMiddleware db username tenantParam =
              .httpError 403 "tenants.operator_required") ∧
          (r.role = .admin ∨ r.role = .operator →
            tenantOperatorMiddleware db username tenantParam = .next)) := by
  have hparam : ∀ h : atoi tenantParam = some tid, tenantParam ≠ "" := by
    intro h he
    rw [he] at h
    simp [atoi] at h
  refine ⟨?_, ?_, ?_, ?_, ?_⟩
  · intro hu
    unfold tenantAdminMiddleware tenantOperatorMiddleware
    rw [if_pos hu, if_pos hu]
    exact ⟨rfl, rfl⟩
  · intro hu hp
    unfold tenantAdminMiddleware tenantOperatorMiddleware
    rw [if_neg hu, if_neg hu, if_pos hp, if_pos hp]
    exact ⟨rfl, rfl⟩
  · intro hu hp ha
    unfold tenantAdminMiddleware tenantOperatorMiddleware
    rw [if_neg hu, if_neg hu, if_neg hp, if_neg hp, ha]
    exact ⟨rfl, rfl⟩
  · intro hu ha hrows
    unfold tenantAdminMiddleware tenantOperatorMiddleware
    rw [if_neg hu, if_neg hu, if_neg (hparam ha), if_neg (hparam ha)]
    simp only [ha]
    unfold isUserTenantAdmin getUserRoleInTenant
    rw [hrows]
    exact ⟨rfl, rfl⟩
  · intro hu ha hrows
    unfold tenantAdminMiddleware tenantOperatorMiddleware
    rw [if_neg hu, if_neg hu, if_neg (hparam ha), if_neg (hparam ha)]
    simp only [ha]
    unfold isUserTenantAdmin getUserRoleInTenant
    rw [hrows]
    refine ⟨?_, ?_, ?_, ?_⟩
    · intro hr
      simp [entOnly, hr]
    · intro hr
      simp [entOnly, hr]
    · intro hr1 hr2
      simp [entOnly, hr1, hr2]
    · intro hr
      rcases hr with hr | hr <;> simp [entOnly, hr]

/-- A sample membership row (operator in tenant 5) for the C3 witness. -/
def sampleOperatorRow : UserTenant := ⟨"u", 5, .operator, false⟩

/-- C3 amended, witness: with the single membership row making `"u"` an
operator of tenant 5, the admin gate answers 403 and the operator gate lets
the request through; an anonymous request is redirected to login. -/
theorem tenantGate_responses_witness :
    (tenantAdminMiddleware [sampleOperatorRow] "u" "5" =
        .httpError 403 "tenants.admin_required") ∧
      tenantOperatorMiddleware [sampleOperatorRow] "u" "5" = .next ∧
      tenantAdminMiddleware [sampleOperatorRow] "" "5" = .login := by
  have h := tenantGate_responses [sampleOperatorRow] "u" "5" 5 sampleOperatorRow
  have h0 := tenantGate_responses [sampleOperatorRow] "" "5" 5 sampleOperatorRow
  refine ⟨?_, ?_, ?_⟩
  · exact ((h.2.2.2.2 (by decide) (by decide) (by decide)).1 (by decide))
  · exact ((h.2.2.2.2 (by decide) (by decide) (by decide)).2.2.2 (Or.inr rfl))
  · exact (h0.1 rfl).1

/-! ## Singleton-flag mutations (SetHosterTenant, SetUserDefaultTenant,
AssignUserToTenant) -/

/-- Model of `SetHosterTenant`: first update clears `is_hoster_tenant` on every
tenant, second update sets it on the rows whose id matches. -/
def setHosterTenant (tenants : List Tenant) (tenantID : Int) : List Tenant :=
  (tenants.map (fun t => { t with isHosterTenant := false })).map
    (fun t => if t.id = tenantID then { t with isHosterTenant := true } else t)

/-- Model of `SetUserDefaultTenant`: first update clears `is_default` on all of the
user's membership rows, second update sets it on the rows matching the
composite key. -/
def setUserDefaultTenant (rows : List UserTenant) (userID : String)
    (tenantID : Int) : List UserTenant :=
  (rows.map (fun r =>
      if r.userId = userID then { r with isDefault := false } else r)).map
    (fun r =>
      if r.userId = userID ∧ r.tenantId = tenantID then
        { r with isDefault := true }
      else r)

/-- Model of `AssignUserToTenant`: errors when the assignment already exists; when the
new row is to be the default, first clears `is_default` on the user's other
rows; then creates the new row. -/
def assignUserToTenant (rows : List UserTenant) (userID : String)
    (tenantID : Int) (role : UserTenantRole) (isDefault : Bool) :
    Except String (List UserTenant) :=
  if rows.any (fun r => r.userId = userID ∧ r.tenantId = tenantID) then
    .error "user is already assigned to tenant"
  else
    let cleared :=
      if isDefault then
        rows.map (fun r =>
          if r.userId = userID then { r with isDefault := false } else r)
      else rows
    .ok (cleared ++ [⟨userID, tenantID, role, isDefault⟩])

/-- At most one tenant is flagged as hoster. -/
def hosterInvariant (tenants : List Tenant) : Prop :=
  tenants.countP (·.isHosterTenant) ≤ 1

/-- For every user, at most one membership row is flagged as default. -/
def defaultInvariant (rows : List UserTenant) : Prop :=
  ∀ u : String,
    rows.countP (fun r => decide (r.userId = u) && r.isDefault) ≤ 1

/-- Pointwise-equal predicates count the same. -/
theorem countP_congr_eq {α : Type} (p q : α → Bool) (l : List α)
    (h : ∀ a ∈ l, p a = q a) : l.countP p = l.countP q :=
  List.countP_congr (fun a ha => by rw [h a ha])

/-- C9: the clear-all-then-set-one update sequences preserve (indeed
re-establish) the singleton invariants: after `SetHosterTenant` at most one
tenant is flagged hoster (tenant ids being unique); after
`SetUserDefaultTenant` at most one membership row per user is flagged default
(composite keys being unique); and `AssignUserToTenant`, when it succeeds,
also preserves the per-user default invariant. -/
theorem singleFlag_clear_then_set (tenants : List Tenant)
    (rows : List UserTenant) (tenantID newTenantID : Int) (userID : String)
    (role : UserTenantRole) (isDef : Bool)
    (hT : (tenants.map (·.id)).Nodup)
    (hR : (rows.map (fun r => (r.userId, r.tenantId))).Nodup)
    (hInv : defaultInvariant rows) :
    hosterInvariant (setHosterTenant tenants tenantID) ∧
      defaultInvariant (setUserDefaultTenant rows userID newTenantID) ∧
      ∀ rows', assignUserToTenant rows userID newTenantID role isDef =
        .ok rows' → defaultInvariant rows' := by
  refine ⟨?_, ?_, ?_⟩
  · unfold hosterInvariant setHosterTenant
    rw [List.map_map, List.countP_map]
    rw [countP_congr_eq _ (fun t => decide (t.id = tenantID)) tenants
      (by
        intro t _
        by_cases h : t.id = tenantID <;> simp [h])]
    exact countP_key_le_one (·.id) tenantID tenants hT
  · intro u
    unfold setUserDefaultTenant
    rw [List.map_map, List.countP_map]
    by_cases hu : u = userID
    · subst hu
      rw [countP_congr_eq _
        (fun r => decide ((r.userId, r.tenantId) = (u, newTenantID))) rows
        (by
          intro r _
          by_cases h1 : r.userId = u
          · by_cases h2 : r.tenantId = newTenantID <;> simp [h1, h2]
          · simp [h1])]
      exact countP_key_le_one (fun r => (r.userId, r.tenantId))
        (u, newTenantID) rows hR
    · have hu' : ¬userID = u := by
        intro h
        exact hu h.symm
      rw [countP_congr_eq _
        (fun r => decide (r.userId = u) && r.isDefault) rows
        (by
          intro r _
          by_cases h1 : r.userId = userID
          · by_cases h2 : r.tenantId = newTenantID <;> simp [h1, h2, hu']
          · simp [h1])]
      exact hInv u
  · intro rows' hok
    unfold assignUserToTenant at hok
    by_cases hex :
        rows.any (fun r => r.userId = userID ∧ r.tenantId = newTenantID)
    · rw [if_pos hex] at hok
      cases hok
    · rw [if_neg hex] at hok
      have hrows' : rows' =
          (if isDef then
            rows.map (fun r =>
              if r.userId = userID then { r with isDefault := false } else r)
          else rows) ++ [⟨userID, newTenantID, role, isDef⟩] :=
        (Except.ok.inj hok).symm
      subst hrows'
      intro u
      rw [List.countP_append]
      by_cases hd : isDef
      · subst hd
        rw [if_pos rfl]
        rw [List.countP_map]
        by_cases hu : u = userID
        · subst hu
          rw [countP_congr_eq _ (fun _ => false) rows
            (by
              intro r _
              by_cases h1 : r.userId = u <;> simp [h1])]
          simp [List.countP_cons]
        · have hu' : ¬userID = u := by
            intro h
            exact hu h.symm
          rw [countP_congr_eq _
            (fun r => decide (r.userId = u) && r.isDefault) rows
            (by
              intro r _
              by_cases h1 : r.userId = userID
              · simp [h1, hu']
              · simp [h1])]
          have := hInv u
          have hnew : (List.countP
              (fun r => decide (r.userId = u) && r.isDefault)
              [(⟨userID, newTenantID, role, true⟩ : UserTenant)]) = 0 := by
            simp [List.countP_cons, hu']
          omega
      · simp only [Bool.not_eq_true] at hd
        subst hd
        rw [if_neg (by simp)]
        have hnew : (List.countP
            (fun r => decide (r.userId = u) && r.isDefault)
            [(⟨userID, newTenantID, role, false⟩ : UserTenant)]) = 0 := by
          simp [List.countP_cons]
        have := hInv u
        omega

/-- C9 witness: two tenants (2 flagged hoster beforehand — the invariant is
re-established, not assumed), two membership rows for user `"u"`, unique
keys; moving the hoster flag to tenant 1, the default to tenant 2, and
assigning `"u"` to tenant 3 as default all leave the singleton invariants
holding. -/
theorem singleFlag_clear_then_set_witness :
    hosterInvariant (setHosterTenant [⟨1, false⟩, ⟨2, true⟩] 1) ∧
      defaultInvariant
        (setUserDefaultTenant
          [⟨"u", 1, .admin, true⟩, ⟨"u", 2, .user, false⟩] "u" 3) ∧
      ∀ rows', assignUserToTenant
          [⟨"u", 1, .admin, true⟩, ⟨"u", 2, .user, false⟩] "u" 3 .operator
          true = .ok rows' → defaultInvariant rows' :=
  singleFlag_clear_then_set [⟨1, false⟩, ⟨2, true⟩]
    [⟨"u", 1, .admin, true⟩, ⟨"u", 2, .user, false⟩] 1 3 "u" .operator true
    (by decide) (by decide)
    (by
      intro u
      by_cases h1 : u = "u"
      · subst h1
        decide
      · simp [List.countP_cons, Ne.symm h1])

/-! ## IsSuperAdmin -/

/-- Model of `IsSuperAdmin`: looks for the hoster tenant (`Only` over the tenants
flagged `is_hoster_tenant`); if that query errors, falls back to the legacy
persisted `is_super_admin` flag on the user row; otherwise checks whether the
user's role in the hoster tenant is `admin`, treating a failed role lookup as
`false`. -/
def isSuperAdmin (tenants : List Tenant) (users : List UserRec)
    (db : List UserTenant) (uid : String) : Except Unit Bool :=
  match entOnly (tenants.filter (·.isHosterTenant)) with
  | .error _ =>
    match entOnly (users.filter (·.id = uid)) with
    | .error e => .error e
    | .ok u => .ok u.isSuperAdmin
  | .ok hosterTenant =>
    match getUserRoleInTenant db uid hosterTenant.id with
    | .error _ => .ok false
    | .ok role => .ok (decide (role = .admin))

/-- C4: when exactly one hoster tenant is designated, `IsSuperAdmin` answers
`true` iff the user's role in that tenant is `admin`, and the answer is
independent of the user rows carrying the legacy flag; when no hoster tenant
is designated, `IsSuperAdmin` returns the legacy persisted flag of the user's
row. -/
theorem isSuperAdmin_derived_or_legacy (tenants : List Tenant)
    (users : List UserRec) (db : List UserTenant) (uid : String) :
    (∀ ht, tenants.filter (·.isHosterTenant) = [ht] →
        (isSuperAdmin tenants users db uid = .ok true ↔
            getUserRoleInTenant db uid ht.id = .ok .admin) ∧
          ∀ users', isSuperAdmin tenants users' db uid =
            isSuperAdmin tenants users db uid) ∧
      (tenants.filter (·.isHosterTenant) = [] → ∀ u,
        users.filter (·.id = uid) = [u] →
        isSuperAdmin tenants users db uid = .ok u.isSuperAdmin) := by
  have key : ∀ ht users0, tenants.filter (·.isHosterTenant) = [ht] →
      isSuperAdmin tenants users0 db uid =
        match getUserRoleInTenant db uid ht.id with
        | Except.error _ => Except.ok false
        | Except.ok role => Except.ok (decide (role = UserTenantRole.admin)) := by
    intro ht users0 hht
    unfold isSuperAdmin
    rw [hht]
    rfl
  constructor
  · intro ht hht
    constructor
    · rw [key ht users hht]
      constructor
      · intro h
        cases hrole : getUserRoleInTenant db uid ht.id with
        | error e =>
          simp only [hrole] at h
          exact absurd (Except.ok.inj h) (by simp)
        | ok role =>
          simp only [hrole] at h
          have hr : role = .admin := of_decide_eq_true (Except.ok.inj h)
          rw [hr]
      · intro h
        rw [h]
        rfl
    · intro users'
      rw [key ht users hht, key ht users' hht]
  · intro hht u hu
    unfold isSuperAdmin
    rw [hht, hu]
    rfl

/-- C4 witness: tenant 1 is the sole hoster tenant; user `"root"` is admin
there, so the derived decision is `true` (equivalently, the role lookup gives
`admin`), regardless of the legacy rows; and with no hoster tenant at all,
user `"legacy"` whose row carries `is_super_admin = true` gets `true` from
the fallback. -/
theorem isSuperAdmin_derived_or_legacy_witness :
    ((isSuperAdmin [⟨1, true⟩] [⟨"root", false⟩] [⟨"root", 1, .admin, true⟩]
            "root" = .ok true ↔
        getUserRoleInTenant [⟨"root", 1, .admin, true⟩] "root"
            (Tenant.mk 1 true).id = .ok .admin) ∧
        (∀ users', isSuperAdmin [⟨1, true⟩] users' [⟨"root", 1, .admin, true⟩]
            "root" =
          isSuperAdmin [⟨1, true⟩] [⟨"root", false⟩]
            [⟨"root", 1, .admin, true⟩] "root")) ∧
      isSuperAdmin ([] : List Tenant) [⟨"legacy", true⟩] [] "legacy" =
        .ok (UserRec.mk "legacy" true).isSuperAdmin :=
  ⟨(isSuperAdmin_derived_or_legacy [⟨1, true⟩] [⟨"root", false⟩]
      [⟨"root", 1, .admin, true⟩] "root").1 ⟨1, true⟩ (by decide),
    (isSuperAdmin_derived_or_legacy [] [⟨"legacy", true⟩] [] "legacy").2
      (by decide) ⟨"legacy", true⟩ (by decide)⟩

/-! ## Token creation form parsing (CreateEnrollmentToken) -/

/-- Whether `y` is a leap year, as used by Go's date validation. -/
def isLeapYear (y : Nat) : Bool :=
  (y % 4 = 0 && y % 100 ≠ 0) || y % 400 = 0

/-- Number of days in month `m` of year `y`. -/
def daysInMonth (y m : Nat) : Nat :=
  if m = 2 then (if isLeapYear y then 29 else 28)
  else if m = 4 || m = 6 || m = 9 || m = 11 then 30
  else 31

/-- Model of `time.Parse("2006-01-02", v)`: exactly `YYYY-MM-DD` with a valid month
and a day valid for that month; anything else is a parse error. -/
def parseDateISO (s : String) : Option (Nat × Nat × Nat) :=
  match s.toList with
  | [y1, y2, y3, y4, '-', m1, m2, '-', d1, d2] =>
    if [y1, y2, y3, y4, m1, m2, d1, d2].all Char.isDigit then
      let y := digitsToNat [y1, y2, y3, y4]
      let m := digitsToNat [m1, m2]
      let d := digitsToNat [d1, d2]
      if 1 ≤ m ∧ m ≤ 12 ∧ 1 ≤ d ∧ d ≤ daysInMonth y m then some (y, m, d)
      else none
    else none
  | _ => none

example : parseDateISO "2025-02-28" = some (2025, 2, 28) := by decide
example : parseDateISO "2025-02-30" = none := by decide
example : parseDateISO "tomorrow" = none := by decide

/-- The enrollment-token row assembled by the creation handler. -/
structure CreatedToken where
  tenantId : Int
  siteId : Option Int
  description : String
  tokenValue : String
  maxUses : Int
  expiresAt : Option (Nat × Nat × Nat)
  deriving DecidableEq, Repr

/-- Model of the `CreateEnrollmentToken` handler: rejects only an unparseable tenant id
from the common info; `max_uses` falls back to 0 when empty or unparseable
(the `Atoi` error is discarded), `site_id` is kept only when it parses to a
positive value, `expires_at` is kept only when it parses as `YYYY-MM-DD`,
and the token is created regardless.  The random `uuid.New().String()` value
is a parameter. -/
def createEnrollmentToken (tenantIDStr description tokenValue maxUsesField
    siteIDField expiresAtField : String) : Except String CreatedToken :=
  match atoi tenantIDStr with
  | none => .error "tenants.invalid_tenant_id"
  | some tenantID =>
    let maxUses : Int :=
      if maxUsesField = "" then 0
      else match atoi maxUsesField with
        | some n => n
        | none => 0
    let siteID : Option Int :=
      if siteIDField = "" then none
      else match atoi siteIDField with
        | some id => if id > 0 then some id else none
        | none => none
    let expiresAt : Option (Nat × Nat × Nat) :=
      if expiresAtField = "" then none
      else match parseDateISO expiresAtField with
        | some t => some t
        | none => none
    .ok ⟨tenantID, siteID, description, tokenValue, maxUses, expiresAt⟩

/-- C10: token creation never rejects malformed optional form fields — an
unparseable `max_uses` is coerced to 0, a missing/unparseable/non-positive
`site_id` becomes no site, an `expires_at` not matching `YYYY-MM-DD` becomes
no expiry, and the token is still created (given a parseable tenant id). -/
theorem createEnrollmentToken_lenient (tenantIDStr description tokenValue
    maxUsesField siteIDField expiresAtField : String) (tenantID : Int)
    (ht : atoi tenantIDStr = some tenantID)
    (hmu : atoi maxUsesField = none)
    (hsite : siteIDField = "" ∨ atoi siteIDField = none ∨
      ∃ id, atoi siteIDField = some id ∧ id ≤ 0)
    (hexp : parseDateISO expiresAtField = none) :
    createEnrollmentToken tenantIDStr description tokenValue maxUsesField
        siteIDField expiresAtField =
      .ok ⟨tenantID, none, description, tokenValue, 0, none⟩ := by
  unfold createEnrollmentToken
  rw [ht]
  simp only [hmu, hexp]
  have hmax : (if maxUsesField = "" then (0 : Int)
      else match (none : Option Int) with
        | some n => n
        | none => 0) = 0 := by
    by_cases h : maxUsesField = "" <;> simp [h]
  have hexp' : (if expiresAtField = "" then (none : Option (Nat × Nat × Nat))
      else match (none : Option (Nat × Nat × Nat)) with
        | some t => some t
        | none => none) = none := by
    by_cases h : expiresAtField = "" <;> simp [h]
  rw [hmax, hexp']
  rcases hsite with hs | hs | ⟨id, hs, hid⟩
  · rw [if_pos hs]
  · by_cases h : siteIDField = ""
    · rw [if_pos h]
    · rw [if_neg h, hs]
  · have h : siteIDField ≠ "" := by
      intro he
      rw [he] at hs
      simp [atoi] at hs
    rw [if_neg h, hs]
    simp [not_lt.mpr hid]

/-- C10 witness: tenant `"3"` parses; `max_uses = "12abc"` is unparseable,
`site_id = "xyz"` is unparseable and `expires_at = "2025-02-30"` is not a
valid date — the token is still created with `max_uses = 0`, no site and no
expiry. -/
theorem createEnrollmentToken_lenient_witness :
    createEnrollmentToken "3" "lab" "aaaa-bbbb" "12abc" "xyz" "2025-02-30" =
      .ok ⟨3, none, "lab", "aaaa-bbbb", 0, none⟩ :=
  createEnrollmentToken_lenient "3" "lab" "aaaa-bbbb" "12abc" "xyz"
    "2025-02-30" 3 (by decide) (by decide) (Or.inr (Or.inl (by decide)))
    (by decide)

/-! ## net/url parsing and deriveExternalNATSURL -/

/-- Result of `url.Parse` restricted to the fields `deriveExternalNATSURL`
reads: `Scheme`, `Hostname()` and `Port()`. -/
structure ParsedURL where
  scheme : String
  hostname : String
  port : String
  deriving DecidableEq, Repr

/-- Scheme scan of `url.Parse` (`getScheme`): characters up to a `:` form
the scheme when the accumulator is a valid scheme (letters, then letters,
digits, `+`, `-`, `.`); a leading `:` is the "missing protocol scheme"
error; a non-scheme character or a digit-class first character means the
whole input is treated as having no scheme. -/
def getSchemeAux (acc s orig : List Char) : Option (List Char × List Char) :=
  match s with
  | [] => some ([], orig)
  | c :: rest =>
    if c = ':' then
      if acc = [] then none else some (acc.reverse, rest)
    else if c.isAlpha then getSchemeAux (c :: acc) rest orig
    else if c.isDigit || c = '+' || c = '-' || c = '.' then
      if acc = [] then some ([], orig) else getSchemeAux (c :: acc) rest orig
    else some ([], orig)

/-- Split the authority at the last `:`; the part after it must be a valid
optional port (all digits, possibly empty), anything else is `url.Parse`'s
"invalid port" error.  Without a `:` there is no port. -/
def splitHostPort (auth : List Char) : Option (List Char × List Char) :=
  if ':' ∈ auth then
    let host := ((auth.reverse.dropWhile (fun c => c ≠ ':')).tail).reverse
    let port := (auth.reverse.takeWhile (fun c => c ≠ ':')).reverse
    if port.all Char.isDigit then some (host, port) else none
  else some (auth, [])

/-- After the scheme: a `//` introduces the authority (up to `/`, `?` or
`#`), split into hostname and port; otherwise the URL is opaque and
`Port()` is empty. -/
def parseAfterScheme (rest : List Char) : Option (List Char × List Char) :=
  match rest with
  | '/' :: '/' :: r =>
    splitHostPort (r.takeWhile (fun c => c ≠ '/' && c ≠ '?' && c ≠ '#'))
  | _ => some ([], [])

/-- Model of `url.Parse`, restricted for the scheme/host/port shapes a broker URL can
take (userinfo and IPv6 bracket syntax are not modelled). -/
def parseURL (s : String) : Option ParsedURL :=
  match getSchemeAux [] s.toList s.toList with
  | none => none
  | some (sch, rest) =>
    match parseAfterScheme rest with
    | none => none
    | some (h, p) => some ⟨⟨sch⟩, ⟨h⟩, ⟨p⟩⟩

example : parseURL "tls://nats:4433" =
    some ⟨"tls", "nats", "4433"⟩ := by decide
example : parseURL "tls://nats" = some ⟨"tls", "nats", ""⟩ := by decide
example : parseURL "tls://nats:port" = none := by decide

/-- Model of `deriveExternalNATSURL`: on a parse error or an empty domain the internal
URL is returned unchanged; otherwise the internal scheme and port (default
`4433`) are recombined with the console's external domain. -/
def deriveExternalNATSURL (internalNATS domain : String) : String :=
  match parseURL internalNATS with
  | none => internalNATS
  | some parsed =>
    if domain = "" then internalNATS
    else
      let port := if parsed.port = "" then "4433" else parsed.port
      parsed.scheme ++ "://" ++ domain ++ ":" ++ port

example : deriveExternalNATSURL "tls://nats:4433" "example.com" =
    "tls://example.com:4433" := by decide

/-- The function `takeWhile` keeps a list all of whose elements satisfy the predicate. -/
theorem takeWhile_of_all {α : Type} {p : α → Bool} :
    ∀ l : List α, (∀ a ∈ l, p a = true) → l.takeWhile p = l := by
  intro l
  induction l with
  | nil => intro _; rfl
  | cons a t ih =>
    intro h
    simp [List.takeWhile_cons, h a (List.mem_cons_self a t),
      ih (fun b hb => h b (List.mem_cons_of_mem a hb))]

/-- The function `takeWhile` stops exactly at the first failing element. -/
theorem takeWhile_append_stop {α : Type} {p : α → Bool} (x : α)
    (l2 : List α) (hx : p x = false) :
    ∀ l1 : List α, (∀ a ∈ l1, p a = true) →
      (l1 ++ x :: l2).takeWhile p = l1 := by
  intro l1
  induction l1 with
  | nil => intro _; simp [List.takeWhile_cons, hx]
  | cons a t ih =>
    intro h
    simp [List.cons_append, List.takeWhile_cons,
      h a (List.mem_cons_self a t),
      ih (fun b hb => h b (List.mem_cons_of_mem a hb))]

/-- The function `dropWhile` drops exactly up to the first failing element. -/
theorem dropWhile_append_stop {α : Type} {p : α → Bool} (x : α)
    (l2 : List α) (hx : p x = false) :
    ∀ l1 : List α, (∀ a ∈ l1, p a = true) →
      (l1 ++ x :: l2).dropWhile p = x :: l2 := by
  intro l1
  induction l1 with
  | nil => simp [List.dropWhile_cons, hx]
  | cons a t ih =>
    intro h
    rw [List.cons_append, List.dropWhile_cons]
    simp only [h a (List.mem_cons_self a t), if_pos rfl]
    exact ih (fun b hb => h b (List.mem_cons_of_mem a hb))

/-- The scheme scan accepts an all-letter scheme followed by `:` and returns
the remainder unread. -/
theorem getSchemeAux_scheme (r orig : List Char) :
    ∀ (sch acc : List Char), sch.all Char.isAlpha = true →
      (acc = [] → sch ≠ []) →
      getSchemeAux acc (sch ++ ':' :: r) orig = some (acc.reverse ++ sch, r) := by
  intro sch
  induction sch with
  | nil =>
    intro acc _ hne
    have hacc : acc ≠ [] := fun h => (hne h) rfl
    rw [List.nil_append]
    simp [getSchemeAux, hacc]
  | cons c cs ih =>
    intro acc hall hne
    rw [List.all_cons, Bool.and_eq_true] at hall
    have hc : ¬(c = ':') := by
      intro h
      rw [h] at hall
      exact absurd hall.1 (by decide)
    rw [List.cons_append]
    show getSchemeAux acc (c :: (cs ++ ':' :: r)) orig = _
    rw [getSchemeAux, if_neg hc, if_pos hall.1]
    rw [ih (c :: acc) hall.2 (fun h => List.cons_ne_nil c acc h |>.elim)]
    simp

/-- A digit is none of the authority delimiters. -/
theorem digit_not_delim (c : Char) (h : c.isDigit = true) :
    (decide (c ≠ '/') && decide (c ≠ '?') && decide (c ≠ '#')) = true := by
  have h1 : c ≠ '/' := by
    intro he
    rw [he] at h
    exact absurd h (by decide)
  have h2 : c ≠ '?' := by
    intro he
    rw [he] at h
    exact absurd h (by decide)
  have h3 : c ≠ '#' := by
    intro he
    rw [he] at h
    exact absurd h (by decide)
  simp [h1, h2, h3]

/-- A digit is not a colon. -/
theorem digit_ne_colon (c : Char) (h : c.isDigit = true) :
    decide (c ≠ ':') = true := by
  have h1 : c ≠ ':' := by
    intro he
    rw [he] at h
    exact absurd h (by decide)
  simp [h1]

/-- The function `splitHostPort` splits an authority of the shape `host ++ ":" ++ port`
at its last colon when the host has no colon and the port is all digits. -/
theorem splitHostPort_split (hostL portL : List Char)
    (hp : portL.all Char.isDigit = true) :
    splitHostPort (hostL ++ ':' :: portL) = some (hostL, portL) := by
  have hmem : ':' ∈ hostL ++ ':' :: portL :=
    List.mem_append_right hostL (List.mem_cons_self ':' portL)
  have hrev : (hostL ++ ':' :: portL).reverse =
      portL.reverse ++ ':' :: hostL.reverse := by
    rw [List.reverse_append, List.reverse_cons, List.append_assoc,
      List.singleton_append]
  have hpr : ∀ c ∈ portL.reverse, (decide (c ≠ ':')) = true := by
    intro c hc
    exact digit_ne_colon c
      (by
        rw [List.all_eq_true] at hp
        exact hp c (List.mem_reverse.mp hc))
  have htake : (portL.reverse ++ ':' :: hostL.reverse).takeWhile
      (fun c => decide (c ≠ ':')) = portL.reverse :=
    takeWhile_append_stop ':' hostL.reverse (by simp) portL.reverse hpr
  have hdrop : (portL.reverse ++ ':' :: hostL.reverse).dropWhile
      (fun c => decide (c ≠ ':')) = ':' :: hostL.reverse :=
    dropWhile_append_stop ':' hostL.reverse (by simp) portL.reverse hpr
  unfold splitHostPort
  rw [if_pos hmem]
  simp only [hrev, htake, hdrop, List.tail_cons, List.reverse_reverse]
  rw [if_pos hp]

/-- The function `splitHostPort` applied to a colon-free authority: the whole authority is the
host and the port is empty. -/
theorem splitHostPort_no_colon (hostL : List Char)
    (hh : ∀ c ∈ hostL, c ≠ ':') :
    splitHostPort hostL = some (hostL, []) := by
  unfold splitHostPort
  rw [if_neg (fun hmem => (hh ':' hmem) rfl)]

/-- Appending strings appends their character lists. -/
theorem string_toList_append (a b : String) :
    (a ++ b).toList = a.toList ++ b.toList :=
  String.data_append a b

/-- The parser `parseURL` recovers the components of `scheme://host:port` and
`scheme://host` when the scheme is letters, the host avoids the delimiter
characters and the port is all digits. -/
theorem parseURL_roundtrip (sch host port : String)
    (hs1 : sch.toList ≠ []) (hs2 : sch.toList.all Char.isAlpha = true)
    (hh : ∀ c ∈ host.toList, c ≠ ':' ∧ c ≠ '/' ∧ c ≠ '?' ∧ c ≠ '#')
    (hp : port.toList.all Char.isDigit = true) :
    parseURL (sch ++ "://" ++ host ++ ":" ++ port) =
        some ⟨sch, host, port⟩ ∧
      parseURL (sch ++ "://" ++ host) = some ⟨sch, host, ""⟩ := by
  have hsplit1 : (sch ++ "://" ++ host ++ ":" ++ port).toList =
      sch.toList ++ ':' :: '/' :: '/' :: (host.toList ++ ':' :: port.toList) := by
    rw [string_toList_append, string_toList_append, string_toList_append,
      string_toList_append]
    rw [show ("://" : String).toList = [':', '/', '/'] from rfl,
      show (":" : String).toList = [':'] from rfl]
    simp
  have hsplit2 : (sch ++ "://" ++ host).toList =
      sch.toList ++ ':' :: '/' :: '/' :: host.toList := by
    rw [string_toList_append, string_toList_append]
    rw [show ("://" : String).toList = [':', '/', '/'] from rfl]
    simp
  have hauth : ∀ c ∈ host.toList ++ ':' :: port.toList,
      (decide (c ≠ '/') && decide (c ≠ '?') && decide (c ≠ '#')) = true := by
    intro c hc
    rcases List.mem_append.mp hc with hm | hm
    · obtain ⟨-, hc2, hc3, hc4⟩ := hh c hm
      simp [hc2, hc3, hc4]
    · rcases List.mem_cons.mp hm with hm | hm
      · rw [hm]
        decide
      · exact digit_not_delim c
          (by
            rw [List.all_eq_true] at hp
            exact hp c hm)
  have hhost : ∀ c ∈ host.toList,
      (decide (c ≠ '/') && decide (c ≠ '?') && decide (c ≠ '#')) = true := by
    intro c hc
    obtain ⟨-, hc2, hc3, hc4⟩ := hh c hc
    simp [hc2, hc3, hc4]
  constructor
  · unfold parseURL
    rw [hsplit1,
      getSchemeAux_scheme ('/' :: '/' :: (host.toList ++ ':' :: port.toList))
        (sch.toList ++ ':' :: '/' :: '/' :: (host.toList ++ ':' :: port.toList))
        sch.toList [] hs2 (fun _ => hs1)]
    show (match parseAfterScheme
        ('/' :: '/' :: (host.toList ++ ':' :: port.toList)) with
      | none => none
      | some (h, p) =>
        some (⟨⟨List.reverse [] ++ sch.toList⟩, ⟨h⟩, ⟨p⟩⟩ : ParsedURL)) = _
    rw [show parseAfterScheme
        ('/' :: '/' :: (host.toList ++ ':' :: port.toList)) =
        splitHostPort ((host.toList ++ ':' :: port.toList).takeWhile
          (fun c => decide (c ≠ '/') && decide (c ≠ '?') && decide (c ≠ '#')))
        from rfl]
    rw [takeWhile_of_all _ hauth, splitHostPort_split host.toList port.toList hp]
    rfl
  · unfold parseURL
    rw [hsplit2,
      getSchemeAux_scheme ('/' :: '/' :: host.toList)
        (sch.toList ++ ':' :: '/' :: '/' :: host.toList)
        sch.toList [] hs2 (fun _ => hs1)]
    show (match parseAfterScheme ('/' :: '/' :: host.toList) with
      | none => none
      | some (h, p) =>
        some (⟨⟨List.reverse [] ++ sch.toList⟩, ⟨h⟩, ⟨p⟩⟩ : ParsedURL)) = _
    rw [show parseAfterScheme ('/' :: '/' :: host.toList) =
        splitHostPort (host.toList.takeWhile
          (fun c => decide (c ≠ '/') && decide (c ≠ '?') && decide (c ≠ '#')))
        from rfl]
    rw [takeWhile_of_all _ hhost,
      splitHostPort_no_colon host.toList (fun c hc => (hh c hc).1)]
    rfl

/-- C7: for an internally-configured broker URL of the shape
`scheme://host:port` (or without a port) and a non-empty console domain,
the derived broker address is the internal scheme, then the external domain,
then the internal port, defaulting to `4433` when the internal URL carries
no port; an unparseable internal URL, or an empty domain, leaves the
internal URL unchanged. -/
theorem deriveExternalNATSURL_recombines (sch host port domain : String)
    (hs1 : sch.toList ≠ []) (hs2 : sch.toList.all Char.isAlpha = true)
    (hh : ∀ c ∈ host.toList, c ≠ ':' ∧ c ≠ '/' ∧ c ≠ '?' ∧ c ≠ '#')
    (hp : port.toList.all Char.isDigit = true)
    (hd : domain ≠ "") :
    deriveExternalNATSURL (sch ++ "://" ++ host ++ ":" ++ port) domain =
        sch ++ "://" ++ domain ++ ":" ++ (if port = "" then "4433" else port) ∧
      deriveExternalNATSURL (sch ++ "://" ++ host) domain =
        sch ++ "://" ++ domain ++ ":" ++ "4433" ∧
      (∀ u, parseURL u = none → deriveExternalNATSURL u domain = u) ∧
      deriveExternalNATSURL (sch ++ "://" ++ host ++ ":" ++ port) "" =
        sch ++ "://" ++ host ++ ":" ++ port := by
  obtain ⟨h1, h2⟩ := parseURL_roundtrip sch host port hs1 hs2 hh hp
  refine ⟨?_, ?_, ?_, ?_⟩
  · unfold deriveExternalNATSURL
    rw [h1]
    simp only [if_neg hd]
  · unfold deriveExternalNATSURL
    rw [h2]
    simp only [if_neg hd]
    rfl
  · intro u hu
    unfold deriveExternalNATSURL
    rw [hu]
  · unfold deriveExternalNATSURL
    rw [h1]
    simp

/-- C7 witness: the internal broker URL `tls://nats:4433` with console
domain `example.com` derives to `tls://example.com:4433`; `tls://nats`
(no port) derives to `tls://example.com:4433` via the default port; parse
errors and an empty domain leave the input unchanged. -/
theorem deriveExternalNATSURL_recombines_witness :
    deriveExternalNATSURL "tls://nats:4433" "example.com" =
        "tls" ++ "://" ++ "example.com" ++ ":" ++
          (if ("4433" : String) = "" then "4433" else "4433") ∧
      deriveExternalNATSURL "tls://nats" "example.com" =
        "tls" ++ "://" ++ "example.com" ++ ":" ++ "4433" ∧
      (∀ u, parseURL u = none →
        deriveExternalNATSURL u "example.com" = u) ∧
      deriveExternalNATSURL "tls://nats:4433" "" = "tls://nats:4433" := by
  have h := deriveExternalNATSURL_recombines "tls" "nats" "4433"
    "example.com" (by decide) (by decide) (by decide) (by decide)
    (by decide)
  exact h

/-! ## generatePlatformConfigINI and PublicDownloadConfig -/

/-- The fixed `[Agent]` block written before the enrollment token. -/
def iniHeader : String :=
  "[Agent]\nUUID=\nEnabled=true\nExecuteTaskEveryXMinutes=5\nDebug=false\nDefaultFrequency=5\nSFTPPort=2022\nVNCProxyPort=5900\nSFTPDisabled=false\nRemoteAssistanceDisabled=false\n"

/-- The `[Certificates]` block for `platform == "windows"`: absolute
backslash paths under the program-files root. -/
def windowsCertBlock : String :=
  "CACert=C:\\Program Files\\EigerCode\\AltiviewAgent\\certificates\\ca.cer\nAgentCert=C:\\Program Files\\EigerCode\\AltiviewAgent\\certificates\\agent.cer\nAgentKey=C:\\Program Files\\EigerCode\\AltiviewAgent\\certificates\\agent.key\nSFTPCert=C:\\Program Files\\EigerCode\\AltiviewAgent\\certificates\\sftp.cer\n"

/-- The `[Certificates]` block for every other platform: forward-slash
relative paths. -/
def unixCertBlock : String :=
  "CACert=certificates/ca.cer\nAgentCert=certificates/agent.cer\nAgentKey=certificates/agent.key\nSFTPCert=certificates/sftp.cer\n"

/-- Model of `generatePlatformConfigINI`: the `[Agent]` block with the enrollment
token, the `[NATS]` block with the broker address, and the platform-specific
`[Certificates]` block. -/
def generatePlatformConfigINI (platform natsServers token : String) : String :=
  iniHeader ++ "EnrollmentToken=" ++ token ++ "\n" ++ "\n[NATS]\n" ++
    "NATSServers=" ++ natsServers ++ "\n" ++ "\n[Certificates]\n" ++
    (if platform = "windows" then windowsCertBlock else unixCertBlock)

/-- The platform normalization of `PublicDownloadConfig`: anything other
than the three recognized values falls back to `linux`. -/
def normalizePlatform (p : String) : String :=
  if p = "linux" || p = "macos" || p = "windows" then p else "linux"

/-- An HTTP response of the public download endpoint: a plain-text response,
a ZIP attachment (list of entry-name/content pairs), or the runtime panic of
slicing a token value shorter than 8 bytes. -/
inductive HResp where
  | text (status : Nat) (body : String)
  | zip (status : Nat) (filename : String) (entries : List (String × String))
  | panicked
  deriving DecidableEq, Repr

/-- Model of `PublicDownloadConfig`: 400 on a missing token value, 404 on an unknown
one, 403 for inactive/expired/usage-limit, 500 when the CA certificate
cannot be read (`caCert = none`), otherwise a 200 ZIP with `openuem.ini`
and `certificates/ca.cer`. -/
def publicDownloadConfig (store : List EnrollmentToken)
    (tokenParam platformParam : String) (caCert : Option String)
    (natsServers domain : String) (now : Int) : HResp :=
  if tokenParam = "" then .text 400 "missing token"
  else
    match getEnrollmentTokenByValue store tokenParam with
    | none => .text 404 "invalid token"
    | some token =>
      if !token.active then .text 403 "token is inactive"
      else if isExpired token now then .text 403 "token has expired"
      else if token.maxUses > 0 && token.currentUses ≥ token.maxUses then
        .text 403 "token usage limit reached"
      else
        let platform := normalizePlatform platformParam
        match caCert with
        | none => .text 500 "could not read CA certificate"
        | some cert =>
          let externalNATS := deriveExternalNATSURL natsServers domain
          let iniContent :=
            generatePlatformConfigINI platform externalNATS token.token
          if tokenParam.length < 8 then .panicked
          else
            .zip 200 ("openuem-config-" ++ tokenParam.take 8 ++ ".zip")
              [("openuem.ini", iniContent), ("certificates/ca.cer", cert)]

/-- Shared helper: the happy path of `PublicDownloadConfig`, spelled out. -/
theorem publicDownloadConfig_ok_eq (store : List EnrollmentToken)
    (tokenParam platformParam cert natsServers domain : String) (now : Int)
    (token : EnrollmentToken) (hp : tokenParam ≠ "")
    (hfind : getEnrollmentTokenByValue store tokenParam = some token)
    (ha : token.active = true) (he : isExpired token now = false)
    (hu : (token.maxUses > 0 && token.currentUses ≥ token.maxUses) = false)
    (hlen : 8 ≤ tokenParam.length) :
    publicDownloadConfig store tokenParam platformParam (some cert)
        natsServers domain now =
      .zip 200 ("openuem-config-" ++ tokenParam.take 8 ++ ".zip")
        [("openuem.ini",
          generatePlatformConfigINI (normalizePlatform platformParam)
            (deriveExternalNATSURL natsServers domain) token.token),
         ("certificates/ca.cer", cert)] := by
  unfold publicDownloadConfig
  rw [if_neg hp]
  simp only [hfind, ha, he, hu, Bool.not_true, Bool.false_eq_true, if_false,
    if_neg (not_lt.mpr hlen)]

/-- C5: the public redemption endpoint's exact statuses — 400 for a missing
token value, 404 for an unknown one, 403 for an inactive, expired or
usage-limit-reached token, 500 when the CA certificate cannot be read, and
200 with the ZIP archive for a valid token with a readable secret. -/
theorem publicDownloadConfig_statuses (store : List EnrollmentToken)
    (tokenParam platformParam : String) (caCert : Option String)
    (natsServers domain : String) (now : Int) :
    (tokenParam = "" →
      publicDownloadConfig store tokenParam platformParam caCert natsServers
        domain now = .text 400 "missing token") ∧
      (tokenParam ≠ "" → getEnrollmentTokenByValue store tokenParam = none →
        publicDownloadConfig store tokenParam platformParam caCert natsServers
          domain now = .text 404 "invalid token") ∧
      (∀ token, tokenParam ≠ "" →
        getEnrollmentTokenByValue store tokenParam = some token →
        (token.active = false →
          publicDownloadConfig store tokenParam platformParam caCert
            natsServers domain now = .text 403 "token is inactive") ∧
          (token.active = true → isExpired token now = true →
            publicDownloadConfig store tokenParam platformParam caCert
              natsServers domain now = .text 403 "token has expired") ∧
          (token.active = true → isExpired token now = false →
            (token.maxUses > 0 && token.currentUses ≥ token.maxUses) = true →
            publicDownloadConfig store tokenParam platformParam caCert
              natsServers domain now =
              .text 403 "token usage limit reached") ∧
          (token.active = true → isExpired token now = false →
            (token.maxUses > 0 && token.currentUses ≥ token.maxUses) = false →
            caCert = none →
            publicDownloadConfig store tokenParam platformParam caCert
              natsServers domain now =
              .text 500 "could not read CA certificate") ∧
          (∀ cert, token.active = true → isExpired token now = false →
            (token.maxUses > 0 && token.currentUses ≥ token.maxUses) = false →
            caCert = some cert → 8 ≤ tokenParam.length →
            publicDownloadConfig store tokenParam platformParam caCert
              natsServers domain now =
              .zip 200 ("openuem-config-" ++ tokenParam.take 8 ++ ".zip")
                [("openuem.ini",
                  generatePlatformConfigINI (normalizePlatform platformParam)
                    (deriveExternalNATSURL natsServers domain) token.token),
                 ("certificates/ca.cer", cert)])) := by
  refine ⟨?_, ?_, ?_⟩
  · intro h
    unfold publicDownloadConfig
    rw [if_pos h]
  · intro h hn
    unfold publicDownloadConfig
    rw [if_neg h]
    simp only [hn]
  · intro token h hsome
    refine ⟨?_, ?_, ?_, ?_, ?_⟩
    · intro ha
      unfold publicDownloadConfig
      rw [if_neg h]
      simp only [hsome, ha]
      rfl
    · intro ha he
      unfold publicDownloadConfig
      rw [if_neg h]
      simp only [hsome, ha, he, Bool.not_true, Bool.false_eq_true, if_false,
        if_true]
    · intro ha he hu
      unfold publicDownloadConfig
      rw [if_neg h]
      simp only [hsome, ha, he, hu, Bool.not_true, Bool.false_eq_true,
        if_false, if_true]
    · intro ha he hu hc
      subst hc
      unfold publicDownloadConfig
      rw [if_neg h]
      simp only [hsome, ha, he, hu, Bool.not_true, Bool.false_eq_true,
        if_false]
    · intro cert ha he hu hc hlen
      subst hc
      exact publicDownloadConfig_ok_eq store tokenParam platformParam cert
        natsServers domain now token h hsome ha he hu hlen

/-- A valid sample token for the C5 witness. -/
def sampleToken5 : EnrollmentToken :=
  ⟨"cccccccc-dddd", true, none, 0, 0, 2, none⟩

/-- C5 witness: a valid token with a readable secret yields the 200 ZIP; an
empty token value yields the 400; an unknown value yields the 404. -/
theorem publicDownloadConfig_statuses_witness :
    publicDownloadConfig [sampleToken5] "cccccccc-dddd" "linux"
        (some "CERT") "tls://nats:4433" "example.com" 0 =
      .zip 200 ("openuem-config-" ++ ("cccccccc-dddd" : String).take 8 ++
          ".zip")
        [("openuem.ini",
          generatePlatformConfigINI (normalizePlatform "linux")
            (deriveExternalNATSURL "tls://nats:4433" "example.com")
            sampleToken5.token),
         ("certificates/ca.cer", "CERT")] ∧
      publicDownloadConfig [sampleToken5] "" "linux" (some "CERT")
        "tls://nats:4433" "example.com" 0 = .text 400 "missing token" ∧
      publicDownloadConfig [sampleToken5] "zzzz" "linux" (some "CERT")
        "tls://nats:4433" "example.com" 0 = .text 404 "invalid token" := by
  refine ⟨?_, ?_, ?_⟩
  · exact ((publicDownloadConfig_statuses [sampleToken5] "cccccccc-dddd"
      "linux" (some "CERT") "tls://nats:4433" "example.com" 0).2.2
      sampleToken5 (by decide) (by decide)).2.2.2.2 "CERT" (by decide)
      (by decide) (by decide) rfl (by decide)
  · exact (publicDownloadConfig_statuses [sampleToken5] "" "linux"
      (some "CERT") "tls://nats:4433" "example.com" 0).1 rfl
  · exact (publicDownloadConfig_statuses [sampleToken5] "zzzz" "linux"
      (some "CERT") "tls://nats:4433" "example.com" 0).2.1 (by decide)
      (by decide)

/-- A token owned by tenant 7 and site 8 used to refute C6. -/
def tokenC6 : EnrollmentToken :=
  ⟨"aaaaaaaa-bbbb", true, none, 0, 0, 7, some 8⟩

/-- The configuration document generated for `tokenC6`'s redemption. -/
def iniC6 : String :=
  generatePlatformConfigINI "linux"
    (deriveExternalNATSURL "tls://nats:4433" "example.com") "aaaaaaaa-bbbb"

set_option maxRecDepth 8192 in
/-- C6 counterexample: a valid redemption of a token scoped to tenant 7 and
site 8 succeeds, but the generated configuration document contains neither
the character `7` nor the character `8` — the tenant/site scoping
identifiers cannot appear in it (`generatePlatformConfigINI` is not even
given them). -/
theorem publicDownloadConfig_no_scoping_ids :
    publicDownloadConfig [tokenC6] "aaaaaaaa-bbbb" "linux" (some "CERT")
        "tls://nats:4433" "example.com" 0 =
      .zip 200 "openuem-config-aaaaaaaa.zip"
        [("openuem.ini", iniC6), ("certificates/ca.cer", "CERT")] ∧
      tokenC6.tenantId = 7 ∧
      tokenC6.siteId = some 8 ∧
      '7' ∉ iniC6.toList ∧
      '8' ∉ iniC6.toList := by
  refine ⟨by decide, rfl, rfl, by decide, by decide⟩

/-- Shared helper: the generated document embeds the token value and the
broker address as contiguous substrings. -/
theorem generatePlatformConfigINI_embeds (platform nats tok : String) :
    (∃ pre post,
      generatePlatformConfigINI platform nats tok = pre ++ tok ++ post) ∧
      ∃ pre post,
        generatePlatformConfigINI platform nats tok = pre ++ nats ++ post := by
  constructor
  · refine ⟨iniHeader ++ "EnrollmentToken=",
      "\n" ++ "\n[NATS]\n" ++ "NATSServers=" ++ nats ++ "\n" ++
        "\n[Certificates]\n" ++
        (if platform = "windows" then windowsCertBlock else unixCertBlock),
      ?_⟩
    unfold generatePlatformConfigINI
    simp only [String.append_assoc]
  · refine ⟨iniHeader ++ "EnrollmentToken=" ++ tok ++ "\n" ++ "\n[NATS]\n" ++
      "NATSServers=",
      "\n" ++ "\n[Certificates]\n" ++
        (if platform = "windows" then windowsCertBlock else unixCertBlock),
      ?_⟩
    unfold generatePlatformConfigINI
    simp only [String.append_assoc]

/-- C6 (amended): every valid redemption yields a 200 ZIP whose
configuration document contains the token value and the derived broker
address, and whose second entry carries the trust-anchor certificate bytes;
the tenant/site scoping identifiers of the token are *not* part of the
bundle (they appear only in the admin installer scripts). -/
theorem publicDownloadConfig_bundle_contents (store : List EnrollmentToken)
    (tokenParam platformParam cert natsServers domain : String) (now : Int)
    (token : EnrollmentToken) (hp : tokenParam ≠ "")
    (hfind : getEnrollmentTokenByValue store tokenParam = some token)
    (ha : token.active = true) (he : isExpired token now = false)
    (hu : (token.maxUses > 0 && token.currentUses ≥ token.maxUses) = false)
    (hlen : 8 ≤ tokenParam.length) :
    ∃ fname ini,
      publicDownloadConfig store tokenParam platformParam (some cert)
          natsServers domain now =
        .zip 200 fname
          [("openuem.ini", ini), ("certificates/ca.cer", cert)] ∧
        (∃ pre post, ini = pre ++ token.token ++ post) ∧
        ∃ pre post,
          ini = pre ++ deriveExternalNATSURL natsServers domain ++ post := by
  refine ⟨"openuem-config-" ++ tokenParam.take 8 ++ ".zip",
    generatePlatformConfigINI (normalizePlatform platformParam)
      (deriveExternalNATSURL natsServers domain) token.token, ?_, ?_, ?_⟩
  · exact publicDownloadConfig_ok_eq store tokenParam platformParam cert
      natsServers domain now token hp hfind ha he hu hlen
  · exact (generatePlatformConfigINI_embeds (normalizePlatform platformParam)
      (deriveExternalNATSURL natsServers domain) token.token).1
  · exact (generatePlatformConfigINI_embeds (normalizePlatform platformParam)
      (deriveExternalNATSURL natsServers domain) token.token).2

/-- C6 amended, witness: the concrete valid redemption of `sampleToken5`
produces a bundle whose document embeds the token value and broker address
and whose second entry is the certificate. -/
theorem publicDownloadConfig_bundle_contents_witness :
    ∃ fname ini,
      publicDownloadConfig [sampleToken5] "cccccccc-dddd" "linux"
          (some "CERT") "tls://nats:4433" "example.com" 0 =
        .zip 200 fname
          [("openuem.ini", ini), ("certificates/ca.cer", "CERT")] ∧
        (∃ pre post, ini = pre ++ sampleToken5.token ++ post) ∧
        ∃ pre post,
          ini = pre ++ deriveExternalNATSURL "tls://nats:4433" "example.com"
            ++ post :=
  publicDownloadConfig_bundle_contents [sampleToken5] "cccccccc-dddd" "linux"
    "CERT" "tls://nats:4433" "example.com" 0 sampleToken5 (by decide)
    (by decide) (by decide) (by decide) (by decide) (by decide)

/-- C8: the windows document carries the backslash program-files
trust-anchor path, every non-windows document carries the forward-slash
relative path, and the generator is a pure function of its inputs
(byte-for-byte stable across calls on identical inputs). -/
theorem generatePlatformConfigINI_paths_and_stable :
    (∀ nats tok : String, ∃ pre post,
      generatePlatformConfigINI "windows" nats tok =
        pre ++
          "CACert=C:\\Program Files\\EigerCode\\AltiviewAgent\\certificates\\ca.cer\n"
          ++ post) ∧
      (∀ p nats tok : String, p ≠ "windows" → ∃ pre post,
        generatePlatformConfigINI p nats tok =
          pre ++ "CACert=certificates/ca.cer\n" ++ post) ∧
      ∀ p1 p2 n1 n2 t1 t2 : String, p1 = p2 → n1 = n2 → t1 = t2 →
        generatePlatformConfigINI p1 n1 t1 = generatePlatformConfigINI p2 n2 t2 := by
  refine ⟨?_, ?_, ?_⟩
  · intro nats tok
    refine ⟨iniHeader ++ "EnrollmentToken=" ++ tok ++ "\n" ++ "\n[NATS]\n" ++
      "NATSServers=" ++ nats ++ "\n" ++ "\n[Certificates]\n",
      "AgentCert=C:\\Program Files\\EigerCode\\AltiviewAgent\\certificates\\agent.cer\nAgentKey=C:\\Program Files\\EigerCode\\AltiviewAgent\\certificates\\agent.key\nSFTPCert=C:\\Program Files\\EigerCode\\AltiviewAgent\\certificates\\sftp.cer\n",
      ?_⟩
    unfold generatePlatformConfigINI
    rw [if_pos rfl]
    rw [show windowsCertBlock =
      "CACert=C:\\Program Files\\EigerCode\\AltiviewAgent\\certificates\\ca.cer\n"
        ++
        "AgentCert=C:\\Program Files\\EigerCode\\AltiviewAgent\\certificates\\agent.cer\nAgentKey=C:\\Program Files\\EigerCode\\AltiviewAgent\\certificates\\agent.key\nSFTPCert=C:\\Program Files\\EigerCode\\AltiviewAgent\\certificates\\sftp.cer\n"
      from rfl]
    simp only [String.append_assoc]
  · intro p nats tok hnw
    refine ⟨iniHeader ++ "EnrollmentToken=" ++ tok ++ "\n" ++ "\n[NATS]\n" ++
      "NATSServers=" ++ nats ++ "\n" ++ "\n[Certificates]\n",
      "AgentCert=certificates/agent.cer\nAgentKey=certificates/agent.key\nSFTPCert=certificates/sftp.cer\n",
      ?_⟩
    unfold generatePlatformConfigINI
    rw [if_neg hnw]
    rw [show unixCertBlock = "CACert=certificates/ca.cer\n" ++
      "AgentCert=certificates/agent.cer\nAgentKey=certificates/agent.key\nSFTPCert=certificates/sftp.cer\n"
      from rfl]
    simp only [String.append_assoc]
  · intro p1 p2 n1 n2 t1 t2 hp hn ht
    rw [hp, hn, ht]

/-- C8 witness: the windows/linux documents at a concrete token and broker
address carry their respective trust-anchor path styles, and equal inputs
give equal documents. -/
theorem generatePlatformConfigINI_paths_and_stable_witness :
    (∃ pre post,
      generatePlatformConfigINI "windows" "tls://example.com:4433" "tok" =
        pre ++
          "CACert=C:\\Program Files\\EigerCode\\AltiviewAgent\\certificates\\ca.cer\n"
          ++ post) ∧
      (∃ pre post,
        generatePlatformConfigINI "linux" "tls://example.com:4433" "tok" =
          pre ++ "CACert=certificates/ca.cer\n" ++ post) ∧
      generatePlatformConfigINI "macos" "tls://example.com:4433" "tok" =
        generatePlatformConfigINI "macos" "tls://example.com:4433" "tok" :=
  ⟨generatePlatformConfigINI_paths_and_stable.1 "tls://example.com:4433"
      "tok",
    generatePlatformConfigINI_paths_and_stable.2.1 "linux"
      "tls://example.com:4433" "tok" (by decide),
    generatePlatformConfigINI_paths_and_stable.2.2 "macos" "macos"
      "tls://example.com:4433" "tls://example.com:4433" "tok" "tok" rfl rfl
      rfl⟩
